import Mathlib

/-!
A shallow embedding of the GeoSAPI repository (src/app.py) together with
proofs of the specification claims.

The repository's core is a chat handler built around three pieces:

* `extract_location_from_text` (app.py lines 48-60): spaCy NER restricted to
  the labels GPE/LOC/FAC, plus a regex that extracts "in X neighborhood" /
  "in X district" mentions;
* `get_location_info` (app.py lines 63-83): a geocode lookup with a
  session-state dict cache (`geolocation_cache`, line 39);
* the module-level chat handler (app.py lines 254-393) that extracts
  locations from the user query and resolves each of them.

External capabilities that the code consumes (the spaCy model, the Nominatim
geocoding provider, and the weather/country/nearby-places HTTP APIs that the
spec's section 1 scopes out as thin I/O glue) are injected as function
parameters; everything the repository itself computes is modelled directly.

Python values that cross the boundary of `get_location_info` are modelled
explicitly: the function can return a 2-tuple, a 3-tuple, the bare value
`None` (falling off the end of the function), or raise an exception.
Coordinates are modelled as rationals: the code performs no arithmetic on
them, it only stores and compares them.
-/

set_option autoImplicit false

namespace GeoSAPI

/-- Latitude/longitude pair as produced by the geocoding provider. -/
structure Coord where
  lat : ℚ
  lon : ℚ
  deriving DecidableEq, Repr

/-- Outcome of one call to the external geocoding provider
(`geolocator.geocode(location_name, exactly_one=True)`): a best match with a
display address, no match (`None`), or a raised exception (timeout, network
error, malformed response). -/
inductive ProviderResult where
  | ok (c : Coord) (address : String)
  | noMatch
  | failure
  deriving DecidableEq, Repr

/-- A Python value returned by (or escaping from) `get_location_info`:
a 2-tuple of optional floats, a 3-tuple of optional floats and an optional
address, the bare value `None` (the function falling off its end), or an
uncaught exception. -/
inductive PyRet where
  | tup2 (lat lon : Option ℚ)
  | tup3 (lat lon : Option ℚ) (address : Option String)
  | pyNone
  | raised
  deriving DecidableEq, Repr

/-- Python exceptions that the handler code can hit. -/
inductive PyErr where
  | typeError
  | valueError
  | geocoderError
  deriving DecidableEq, Repr

/-- `st.session_state["geolocation_cache"]` (app.py line 39): a Python dict
from location string to a `(latitude, longitude)` tuple, modelled as an
insertion-ordered association list. -/
abbrev Cache := List (String × (ℚ × ℚ))

/-- Dict lookup: `location_name in cache` / `cache[location_name]`. -/
def lookupCache (k : String) : Cache → Option (ℚ × ℚ)
  | [] => none
  | (k', v) :: rest => if k' = k then some v else lookupCache k rest

/-- Python dict assignment `cache[k] = v`: replace in place if the key is
present (preserving insertion order), otherwise append. -/
def dictInsert (k : String) (v : ℚ × ℚ) : Cache → Cache
  | [] => [(k, v)]
  | (k', v') :: rest =>
      if k' = k then (k, v) :: rest else (k', v') :: dictInsert k v rest

/-- Result of one call to `get_location_info`: the returned Python value,
the cache afterwards, and the list of location names sent to the external
geocoding provider during the call. -/
structure GeoOutcome where
  ret : PyRet
  cache : Cache
  calls : List String
  deriving DecidableEq, Repr

/-- `get_location_info(location_name, detailed=False)` (app.py lines 63-83).

* Cache hit, `detailed=False`: return the cached `(lat, lon)`; no provider
  call.
* Cache hit, `detailed=True` (lines 66-69): call the provider **outside any
  try/except** to fetch the address; return the cached coordinates together
  with the fresh address (`location.address if location else None`); a
  provider exception escapes uncaught.
* Cache miss (lines 72-83): call the provider inside try/except. On a match,
  store `(location.latitude, location.longitude)` under the exact key and
  return it (plus the address when detailed). On no match the `if location:`
  branch is skipped and the function falls off its end, returning bare
  `None`. On an exception, return a tuple of `None`s.
-/
def get_location_info (provider : String → ProviderResult) (cache : Cache)
    (location_name : String) (detailed : Bool) : GeoOutcome :=
  match lookupCache location_name cache with
  | some (lat, lon) =>
      if detailed then
        match provider location_name with
        | .ok _ address =>
            ⟨.tup3 (some lat) (some lon) (some address), cache, [location_name]⟩
        | .noMatch => ⟨.tup3 (some lat) (some lon) none, cache, [location_name]⟩
        | .failure => ⟨.raised, cache, [location_name]⟩
      else ⟨.tup2 (some lat) (some lon), cache, []⟩
  | none =>
      match provider location_name with
      | .ok c address =>
          let cache' := dictInsert location_name (c.lat, c.lon) cache
          if detailed then
            ⟨.tup3 (some c.lat) (some c.lon) (some address), cache', [location_name]⟩
          else ⟨.tup2 (some c.lat) (some c.lon), cache', [location_name]⟩
      | .noMatch => ⟨.pyNone, cache, [location_name]⟩
      | .failure =>
          if detailed then ⟨.tup3 none none none, cache, [location_name]⟩
          else ⟨.tup2 none none, cache, [location_name]⟩

/-- Python `lat, lon = get_location_info(...)`: unpacking a 2-tuple succeeds;
unpacking `None` raises `TypeError`; a 3-tuple would raise `ValueError`; a
value that never arrived because the call raised propagates the exception. -/
def unpack2 : PyRet → Except PyErr (Option ℚ × Option ℚ)
  | .tup2 a b => .ok (a, b)
  | .tup3 _ _ _ => .error .valueError
  | .pyNone => .error .typeError
  | .raised => .error .geocoderError

/-- Python `lat, lon, address = get_location_info(..., detailed=True)`. -/
def unpack3 : PyRet → Except PyErr (Option ℚ × Option ℚ × Option String)
  | .tup3 a b c => .ok (a, b, c)
  | .tup2 _ _ => .error .valueError
  | .pyNone => .error .typeError
  | .raised => .error .geocoderError

/-- Whether a `get_location_info` return value is a successful resolution,
i.e. carries actual coordinates. -/
def isSuccess : PyRet → Bool
  | .tup2 (some _) (some _) => true
  | .tup3 (some _) (some _) _ => true
  | _ => false

/-! ### Text processing (app.py lines 48-60, 272-282)

Strings are processed as character lists. `Char.toLower` agrees with
Python's `str.lower()` on the ASCII texts the claims are about.
-/

/-- Python `s.lower()`. -/
def lowerStr (s : String) : String := String.mk (s.toList.map Char.toLower)

/-- `startsWithL pat s`: the character list `pat` is an initial segment
of `s`. -/
def startsWithL : List Char → List Char → Bool
  | [], _ => true
  | _ :: _, [] => false
  | a :: as, b :: bs => a = b && startsWithL as bs

/-- Python substring containment `pat in s` on character lists. -/
def strHas (pat : List Char) : List Char → Bool
  | [] => startsWithL pat []
  | b :: bs => startsWithL pat (b :: bs) || strHas pat bs

/-- Membership in the regex character class `[A-Za-z\s]` (ASCII letters and
whitespace; `\s` restricted to its ASCII members, which covers every text
considered here). -/
def isClassChar (c : Char) : Bool :=
  c.isAlpha || c = ' ' || c = '\t' || c = '\n' || c = '\r' ||
    c = Char.ofNat 11 || c = Char.ofNat 12

/-- Length of the longest initial run of `[A-Za-z\s]` characters. -/
def classRun : List Char → Nat
  | [] => 0
  | c :: rest => if isClassChar c then classRun rest + 1 else 0

/-- Greedy match of `([A-Za-z\s]+)` followed by the literal `lit` at the
start of `s`: the largest capture length `k ≥ 1` such that the first `k`
characters are in the class and `lit` follows, exactly as Python's
backtracking regex engine finds it. -/
def greedyCapture (lit : List Char) (s : List Char) : Option Nat :=
  (List.range (classRun s + 1)).reverse.find?
    (fun k => k != 0 && startsWithL lit (s.drop k))

/-- One attempt of the regex
`in ([A-Za-z\s]+) neighborhood|in ([A-Za-z\s]+) district`
anchored at the start of `s`: Python tries the first alternative (with
greedy backtracking) before the second. Returns the two capture groups
(the unused one is the empty string, as `re.findall` reports it) and the
total length of the match. -/
def matchAt (s : List Char) : Option (String × String × Nat) :=
  if startsWithL "in ".toList s then
    let rest := s.drop 3
    match greedyCapture " neighborhood".toList rest with
    | some k => some (String.mk (rest.take k), "", 3 + k + 13)
    | none =>
        match greedyCapture " district".toList rest with
        | some k => some ("", String.mk (rest.take k), 3 + k + 9)
        | none => none
  else none

/-- Scanning loop of `re.findall`: leftmost, non-overlapping matches in
order. Structural recursion on a fuel argument so that concrete inputs
evaluate by `decide`; every successful match consumes at least one
character, so fuel equal to the text length never runs out. -/
def findallNbhdFuel : Nat → List Char → List (String × String)
  | 0, _ => []
  | _, [] => []
  | fuel + 1, c :: tail =>
      match matchAt (c :: tail) with
      | some (g1, g2, len) => (g1, g2) :: findallNbhdFuel fuel (tail.drop (len - 1))
      | none => findallNbhdFuel fuel tail

/-- `re.findall(r'in ([A-Za-z\s]+) neighborhood|in ([A-Za-z\s]+) district', text)`
(app.py line 53). -/
def findallNbhd (text : List Char) : List (String × String) :=
  findallNbhdFuel text.length text

/-- A spaCy named entity: its surface text and its label. The NER model
itself is an injected external capability (`nlp`, app.py line 32). -/
structure Ent where
  txt : String
  label : String

/-- The entity labels kept by the extractor (app.py line 50). -/
def locLabels : List String := ["GPE", "LOC", "FAC"]

/-- Inner loop of app.py lines 55-58: append each nonempty capture group
that is not already among the collected locations (Python's `if part and
part not in locations`), checking against the list as extended so far. -/
def addParts (locs : List String) (n : String × String) : List String :=
  let l1 := if n.1 != "" && !(locs.contains n.1) then locs ++ [n.1] else locs
  if n.2 != "" && !(l1.contains n.2) then l1 ++ [n.2] else l1

/-- `extract_location_from_text(text)` (app.py lines 48-60): the texts of
the NER entities labelled GPE/LOC/FAC, in reading order, followed by the
neighborhood/district regex captures not already present. -/
def extract_location_from_text (ner : String → List Ent) (text : String) :
    List String :=
  let locations := ((ner text).filter (fun e => locLabels.contains e.label)).map Ent.txt
  (findallNbhd text.toList).foldl addParts locations

/-- The closed vocabulary of place types (app.py lines 276-277), in the
order the code lists them. -/
def place_types : List String :=
  ["hospital", "restaurant", "school", "park", "hotel", "mall",
   "cafe", "pharmacy", "bank", "bar", "supermarket", "library"]

/-- The place-type loop (app.py lines 279-282): the first entry of
`place_types`, in list order, that occurs as a substring of the lowercased
user input (`if p in user_input.lower(): place_type = p; break`); `none`
when no entry occurs. -/
def placeTypeOf (user_input : String) : Option String :=
  place_types.find? (fun p => strHas p.toList (lowerStr user_input).toList)

/-- `show_coordinates` (app.py line 272). -/
def showCoordinates (user_input : String) : Bool :=
  let l := (lowerStr user_input).toList
  strHas "coordinates".toList l || strHas "coords".toList l ||
    strHas "location of".toList l

/-! ### The query pipeline (app.py lines 267-383)

The chat handler's location branch: extract locations from the query, and
for each extracted location call `get_location_info` (detailed when
coordinates were requested) and build the response text. The
weather/country/nearby-places blocks (lines 312-383) only consume other
HTTP APIs that the spec scopes out as thin I/O glue; their contribution to
the response is abstracted into the injected `extras` parameter, and
Python's `f"{x:.6f}"` float formatting is abstracted into `fmt6`. Neither
touches the geocode cache or the geocoding provider.
-/

/-- Result of one pipeline run: the response text, the cache afterwards,
the location names sent to the geocoding provider, and the locations the
loop passed to `get_location_info` (in order). -/
structure PipeOut where
  response : String
  cache : Cache
  calls : List String
  resolved : List String
  deriving DecidableEq, Repr

/-- The terminal message of app.py line 285. -/
def noLocationMsg : String :=
  "I couldn\x27t find a location in your query. Try mentioning a city, country, or landmark!"

/-- The per-location failure message of app.py lines 293 and 308. -/
def cantFindMsg (location_name : String) : String :=
  "Sorry, I couldn\x27t find the location: " ++ location_name ++ ".\n\n"

/-- Python's rendering of the address in an f-string (`None` prints as
`"None"`). -/
def addrStr : Option String → String
  | some s => s
  | none => "None"

/-- `f"{x:.6f}"`: formatting a number uses the injected formatter; formatting
`None` raises `TypeError`. -/
def fmtCoord (fmt6 : ℚ → String) : Option ℚ → Except PyErr String
  | some q => .ok (fmt6 q)
  | none => .error .typeError

/-- The header line of app.py line 295 plus address and coordinates
(lines 296-297). -/
def foundDetailedMsg (location_name : String) (address : Option String)
    (latS lonS : String) : String :=
  "📍 **Location Found:** " ++ location_name ++ "\n" ++
  "📌 **Full Address:** " ++ addrStr address ++ "\n" ++
  "🌐 **Coordinates:** " ++ latS ++ ", " ++ lonS ++ "\n\n"

/-- The header line of app.py line 310. -/
def foundMsg (location_name : String) : String :=
  "📍 **Location Found:** " ++ location_name ++ "\n\n"

/-- The `for location_name in locations:` loop (app.py lines 288-383),
threading the response text, the cache, the provider-call log and the list
of locations handed to `get_location_info`. A bare-`None` return from
`get_location_info` makes the tuple unpacking raise `TypeError`, which
aborts the whole handler; an exception escaping `get_location_info`
likewise propagates. -/
def pipeLoop (provider : String → ProviderResult) (fmt6 : ℚ → String)
    (extras : String → Option ℚ → Option ℚ → String) (showCoords : Bool) :
    List String → String → Cache → List String → List String →
    Except PyErr PipeOut
  | [], response, cache, calls, resolved => .ok ⟨response, cache, calls, resolved⟩
  | location_name :: rest, response, cache, calls, resolved =>
      let out := get_location_info provider cache location_name showCoords
      let calls' := calls ++ out.calls
      let resolved' := resolved ++ [location_name]
      if showCoords then
        match unpack3 out.ret with
        | .error e => .error e
        | .ok (latO, lonO, address) =>
            match latO with
            | none =>
                pipeLoop provider fmt6 extras showCoords rest
                  (response ++ cantFindMsg location_name) out.cache calls' resolved'
            | some lat =>
                match fmtCoord fmt6 lonO with
                | .error e => .error e
                | .ok lonS =>
                    pipeLoop provider fmt6 extras showCoords rest
                      (response ++ foundDetailedMsg location_name address (fmt6 lat) lonS)
                      out.cache calls' resolved'
      else
        match unpack2 out.ret with
        | .error e => .error e
        | .ok (latO, lonO) =>
            match latO with
            | none =>
                pipeLoop provider fmt6 extras showCoords rest
                  (response ++ cantFindMsg location_name) out.cache calls' resolved'
            | some lat =>
                pipeLoop provider fmt6 extras showCoords rest
                  (response ++ foundMsg location_name ++
                    extras location_name (some lat) lonO)
                  out.cache calls' resolved'

/-- The chat handler's location branch (app.py lines 267-383): extract the
locations; with none, answer the terminal no-location message (line 285)
without any provider contact; otherwise run the resolution loop over every
extracted location. -/
def chatPipeline (ner : String → List Ent) (provider : String → ProviderResult)
    (fmt6 : ℚ → String) (extras : String → Option ℚ → Option ℚ → String)
    (cache : Cache) (user_input : String) : Except PyErr PipeOut :=
  let locations := extract_location_from_text ner user_input
  match locations with
  | [] => .ok ⟨noLocationMsg, cache, [], []⟩
  | _ :: _ =>
      pipeLoop provider fmt6 extras (showCoordinates user_input) locations "" cache [] []

/-! ### Traces of cache operations -/

/-- One invocation of `get_location_info` in a trace: the location asked
for, the form of the lookup, and the behavior of the external provider at
the time of the call (each call may see a different provider behavior). -/
structure Step where
  name : String
  detailed : Bool
  provider : String → ProviderResult

/-- The cache after a sequence of `get_location_info` invocations. -/
def runCalls : List Step → Cache → Cache
  | [], cache => cache
  | s :: rest, cache =>
      runCalls rest (get_location_info s.provider cache s.name s.detailed).cache

/-! ### Coordinate projection -/

/-- Modelled from the spec: the repository's source under src/ (app.py, the
chat UI) contains no coordinate projection operation; the spec's section
4.3 describes `project(origin, direction, distance_km)` served by an HTTP
surface absent from src/. Its direction-to-bearing mapping is: north=0,
east=90, south=180, west=270 degrees clockwise from true north, and any
direction outside the supported set defaults to bearing 0. -/
def directionBearing (direction : String) : ℚ :=
  if direction = "north" then 0
  else if direction = "east" then 90
  else if direction = "south" then 180
  else if direction = "west" then 270
  else 0

/-! ### Association-list lemmas -/

theorem lookupCache_dictInsert_ne (k n : String) (v : ℚ × ℚ) (c : Cache)
    (h : k ≠ n) : lookupCache k (dictInsert n v c) = lookupCache k c := by
  induction c with
  | nil => simp [dictInsert, lookupCache, Ne.symm h]
  | cons hd tl ih =>
      obtain ⟨k', v'⟩ := hd
      by_cases hk : k' = n
      · subst hk
        simp [dictInsert, lookupCache, Ne.symm h]
      · simp [dictInsert, hk, lookupCache, ih]

theorem dictInsert_of_not_mem (n : String) (v : ℚ × ℚ) (c : Cache)
    (h : lookupCache n c = none) : dictInsert n v c = c ++ [(n, v)] := by
  induction c with
  | nil => rfl
  | cons hd tl ih =>
      obtain ⟨k', v'⟩ := hd
      by_cases hk : k' = n
      · subst hk; simp [lookupCache] at h
      · simp only [lookupCache, if_neg hk] at h
        simp [dictInsert, hk, ih h]

theorem lookupCache_append_of_some (k : String) (v : ℚ × ℚ) (c l : Cache)
    (h : lookupCache k c = some v) : lookupCache k (c ++ l) = some v := by
  induction c with
  | nil => simp [lookupCache] at h
  | cons hd tl ih =>
      obtain ⟨k', v'⟩ := hd
      by_cases hk : k' = k
      · subst hk
        simp only [lookupCache, if_pos rfl] at h ⊢
        exact h
      · simp only [lookupCache, if_neg hk] at h ⊢
        exact ih h

theorem lookupCache_append_of_none (k : String) (c l : Cache)
    (h : lookupCache k c = none) : lookupCache k (c ++ l) = lookupCache k l := by
  induction c with
  | nil => simp
  | cons hd tl ih =>
      obtain ⟨k', v'⟩ := hd
      by_cases hk : k' = k
      · subst hk; simp [lookupCache] at h
      · simp only [lookupCache, if_neg hk] at h ⊢
        exact ih h

/-- Case analysis on the cache side effect of one `get_location_info` call:
either the cache is untouched, or the call was a miss answered by the
provider and the cache grows by exactly the new entry at the end. -/
theorem get_location_info_cache_cases (p : String → ProviderResult) (c : Cache)
    (n : String) (d : Bool) :
    (get_location_info p c n d).cache = c ∨
      (lookupCache n c = none ∧ ∃ c0 addr, p n = .ok c0 addr ∧
        (get_location_info p c n d).cache = c ++ [(n, (c0.lat, c0.lon))]) := by
  cases hl : lookupCache n c with
  | none =>
      cases hp : p n with
      | ok c0 addr =>
          right
          refine ⟨rfl, c0, addr, rfl, ?_⟩
          cases d <;>
            simp [get_location_info, hl, hp, dictInsert_of_not_mem n _ c hl]
      | noMatch => left; cases d <;> simp [get_location_info, hl, hp]
      | failure => left; cases d <;> simp [get_location_info, hl, hp]
  | some q =>
      obtain ⟨lat, lon⟩ := q
      left
      cases d
      · simp [get_location_info, hl]
      · cases hp : p n <;> simp [get_location_info, hl, hp]

/-- Once a key holds a value, any later sequence of calls still finds that
value: nothing is ever evicted, overwritten or expired. -/
theorem runCalls_preserves (steps : List Step) (cache : Cache) (k : String)
    (v : ℚ × ℚ) (h : lookupCache k cache = some v) :
    lookupCache k (runCalls steps cache) = some v := by
  induction steps generalizing cache with
  | nil => exact h
  | cons s rest ih =>
      simp only [runCalls]
      apply ih
      rcases get_location_info_cache_cases s.provider cache s.name s.detailed with
        hc | ⟨hn, c0, addr, hp, hc⟩
      · rw [hc]; exact h
      · rw [hc]; exact lookupCache_append_of_some k v cache _ h

/-- Every value found in the cache after a sequence of calls was either
there at the start or was produced by a successful provider response for
exactly that key. -/
theorem runCalls_provenance (steps : List Step) (cache : Cache) (k : String)
    (v : ℚ × ℚ) (h : lookupCache k (runCalls steps cache) = some v) :
    lookupCache k cache = some v ∨
      ∃ s ∈ steps, s.name = k ∧ ∃ c0 addr,
        s.provider k = .ok c0 addr ∧ (c0.lat, c0.lon) = v := by
  induction steps generalizing cache with
  | nil => exact .inl h
  | cons s rest ih =>
      simp only [runCalls] at h
      rcases ih _ h with h1 | ⟨s', hs', hrest⟩
      · rcases get_location_info_cache_cases s.provider cache s.name s.detailed with
          hc | ⟨hn, c0, addr, hp, hc⟩
        · rw [hc] at h1; exact .inl h1
        · rw [hc] at h1
          cases hkc : lookupCache k cache with
          | some w =>
              rw [lookupCache_append_of_some k w cache _ hkc] at h1
              exact .inl h1
          | none =>
              rw [lookupCache_append_of_none k cache _ hkc] at h1
              by_cases hk : s.name = k
              · have h2 : some (c0.lat, c0.lon) = some v := by
                  rw [← h1]; simp [lookupCache, hk]
                rw [hk] at hp
                exact .inr ⟨s, List.mem_cons_self _ _, hk, c0, addr, hp,
                  Option.some.inj h2⟩
              · simp [lookupCache, hk] at h1
      · exact .inr ⟨s', List.mem_cons_of_mem _ hs', hrest⟩

/-- C10: the geocode cache is grow-only — across any sequence of
`get_location_info` invocations, an entry once present is never evicted,
overwritten or expired, and every entry of a cache built from empty stems
from a successful provider response for exactly that key string, storing
exactly the returned (latitude, longitude) pair. -/
theorem C10_cache_grow_only (steps : List Step) (k : String) (v : ℚ × ℚ) :
    (∀ cache, lookupCache k cache = some v →
        lookupCache k (runCalls steps cache) = some v)
    ∧ (lookupCache k (runCalls steps []) = some v →
        ∃ s ∈ steps, s.name = k ∧ ∃ c0 addr,
          s.provider k = .ok c0 addr ∧ (c0.lat, c0.lon) = v) := by
  constructor
  · intro cache h
    exact runCalls_preserves steps cache k v h
  · intro h
    rcases runCalls_provenance steps [] k v h with h1 | h2
    · simp [lookupCache] at h1
    · exact h2

/-- C10 witness: a concrete cached entry survives an unrelated call, and a
concrete cached value is traced back to its provider response. -/
theorem C10_cache_grow_only_witness :
    lookupCache "Paris"
        (runCalls [⟨"Berlin", false, fun _ => .ok ⟨5, 6⟩ "B"⟩] [("Paris", (1, 2))])
      = some (1, 2) ∧
    (∃ s ∈ [(⟨"Rome", false, fun _ => .ok ⟨7, 8⟩ "R"⟩ : Step)], s.name = "Rome" ∧
      ∃ c0 addr, s.provider "Rome" = .ok c0 addr ∧ (c0.lat, c0.lon) = ((7 : ℚ), (8 : ℚ))) :=
  ⟨(C10_cache_grow_only [⟨"Berlin", false, fun _ => .ok ⟨5, 6⟩ "B"⟩] "Paris" (1, 2)).1
      [("Paris", (1, 2))] (by decide),
   (C10_cache_grow_only [⟨"Rome", false, fun _ => .ok ⟨7, 8⟩ "R"⟩] "Rome" (7, 8)).2
      (by decide)⟩

/-- C7 (amended): the cache has no TTL and no capacity bound — a call never
removes or replaces existing entries, so the cache size never decreases. -/
theorem C7_amended_no_expiry_no_eviction (p : String → ProviderResult)
    (cache : Cache) (n : String) (d : Bool) :
    cache.length ≤ (get_location_info p cache n d).cache.length
    ∧ ∀ e ∈ cache, e ∈ (get_location_info p cache n d).cache := by
  rcases get_location_info_cache_cases p cache n d with hc | ⟨hn, c0, addr, hp, hc⟩
  · rw [hc]
    exact ⟨le_refl _, fun e he => he⟩
  · rw [hc]
    refine ⟨by simp, fun e he => List.mem_append_left _ he⟩

/-- C7 witness: a concrete entry survives a concrete unrelated call. -/
theorem C7_amended_witness :
    ("Oslo", ((1 : ℚ), (2 : ℚ))) ∈
      (get_location_info (fun _ => .ok ⟨3, 4⟩ "x") [("Oslo", (1, 2))] "Bern" false).cache :=
  (C7_amended_no_expiry_no_eviction (fun _ => .ok ⟨3, 4⟩ "x")
      [("Oslo", (1, 2))] "Bern" false).2 _ (by decide)

/-- 101 distinct location strings, each resolved once successfully. -/
def c7Steps : List Step :=
  ((List.range 101).map (fun i => "loc" ++ toString i)).map
    (fun k => ⟨k, false, fun _ => .ok ⟨0, 0⟩ "a"⟩)

set_option maxRecDepth 10000 in
/-- C7 counterexample: after 101 successful resolutions of distinct keys,
the cache holds 101 entries — more than the claimed 100-entry capacity —
and the very first entry is still present, so nothing was evicted. -/
theorem C7_counterexample :
    100 < (runCalls c7Steps []).length ∧
      lookupCache "loc0" (runCalls c7Steps []) = some (0, 0) := by decide

theorem str_nil_append (s : String) : "" ++ s = s := rfl

/-- C1 (amended): on a cache hit, the plain lookup returns the cached
coordinate synchronously with no provider call; the detailed lookup still
returns the cached coordinate but always makes one provider call to fetch
the address — returning the cached coordinates with the fresh address when
the provider answers, and letting a provider exception escape uncaught —
and the cache is unchanged either way. -/
theorem C1_amended_cache_hit (provider : String → ProviderResult) (cache : Cache)
    (name : String) (lat lon : ℚ) (h : lookupCache name cache = some (lat, lon)) :
    get_location_info provider cache name false =
        ⟨.tup2 (some lat) (some lon), cache, []⟩
    ∧ (get_location_info provider cache name true).calls = [name]
    ∧ (get_location_info provider cache name true).cache = cache
    ∧ (∀ c0 addr, provider name = .ok c0 addr →
        (get_location_info provider cache name true).ret =
          .tup3 (some lat) (some lon) (some addr))
    ∧ (provider name = .noMatch →
        (get_location_info provider cache name true).ret =
          .tup3 (some lat) (some lon) none)
    ∧ (provider name = .failure →
        (get_location_info provider cache name true).ret = .raised) := by
  refine ⟨by simp [get_location_info, h], ?_, ?_, ?_, ?_, ?_⟩
  · cases hp : provider name <;> simp [get_location_info, h, hp]
  · cases hp : provider name <;> simp [get_location_info, h, hp]
  · intro c0 addr hp; simp [get_location_info, h, hp]
  · intro hp; simp [get_location_info, h, hp]
  · intro hp; simp [get_location_info, h, hp]

/-- C1 witness: concrete cache hit, plain and detailed forms. -/
theorem C1_amended_witness :
    get_location_info (fun _ => .noMatch) [("Paris", ((1 : ℚ), (2 : ℚ)))] "Paris" false =
        ⟨.tup2 (some 1) (some 2), [("Paris", (1, 2))], []⟩
    ∧ (get_location_info (fun _ => .noMatch)
        [("Paris", ((1 : ℚ), (2 : ℚ)))] "Paris" true).ret = .tup3 (some 1) (some 2) none :=
  ⟨(C1_amended_cache_hit (fun _ => .noMatch) [("Paris", (1, 2))] "Paris" 1 2 (by decide)).1,
   (C1_amended_cache_hit (fun _ => .noMatch) [("Paris", (1, 2))] "Paris" 1 2
      (by decide)).2.2.2.2.1 rfl⟩

/-- C1 counterexample: for the cached key "Paris", the detailed form of the
lookup does call the external provider (and here the call raises), so a
cache hit does not avoid the provider "regardless of which form of the
lookup is requested". -/
theorem C1_counterexample :
    lookupCache "Paris" [("Paris", ((1 : ℚ), (2 : ℚ)))] = some (1, 2)
    ∧ (get_location_info (fun _ => .failure)
        [("Paris", ((1 : ℚ), (2 : ℚ)))] "Paris" true).calls = ["Paris"]
    ∧ (get_location_info (fun _ => .failure)
        [("Paris", ((1 : ℚ), (2 : ℚ)))] "Paris" true).ret = .raised := by decide

/-- C2 (amended): on a cache miss, a provider failure is caught and turned
into a tuple of `None`s, which the chat handler reports with the same
"couldn\x27t find the location" message as an unresolvable location — there
is no distinct unavailability error surfaced to the caller. -/
theorem C2_amended_failure_as_not_found (provider : String → ProviderResult)
    (cache : Cache) (name : String)
    (h1 : lookupCache name cache = none) (h2 : provider name = .failure) :
    (get_location_info provider cache name false).ret = .tup2 none none
    ∧ (get_location_info provider cache name true).ret = .tup3 none none none
    ∧ ∀ (ner : String → List Ent) (fmt6 : ℚ → String)
        (extras : String → Option ℚ → Option ℚ → String) (user_input : String),
        extract_location_from_text ner user_input = [name] →
        chatPipeline ner provider fmt6 extras cache user_input =
          .ok ⟨cantFindMsg name, cache, [name], [name]⟩ := by
  refine ⟨by simp [get_location_info, h1, h2], by simp [get_location_info, h1, h2], ?_⟩
  intro ner fmt6 extras user_input hext
  unfold chatPipeline
  rw [hext]
  cases hsc : showCoordinates user_input <;>
    simp [pipeLoop, get_location_info, h1, h2, unpack2, unpack3, str_nil_append]

/-- C2 witness: a concrete provider failure reported with the
couldn\x27t-find message. -/
theorem C2_amended_witness :
    chatPipeline (fun _ => [⟨"Gotham", "GPE"⟩]) (fun _ => .failure) (fun _ => "")
        (fun _ _ _ => "") [] "show Gotham"
      = .ok ⟨cantFindMsg "Gotham", [], ["Gotham"], ["Gotham"]⟩ :=
  (C2_amended_failure_as_not_found (fun _ => .failure) [] "Gotham" rfl rfl).2.2
    (fun _ => [⟨"Gotham", "GPE"⟩]) (fun _ => "") (fun _ _ _ => "") "show Gotham" (by rfl)

/-- C2 counterexample: with a failing provider, the handler's response is
exactly the "couldn\x27t find the location" message — a provider failure is
reported as location-not-found, not as a distinct unavailability error. -/
theorem C2_counterexample :
    chatPipeline (fun _ => [⟨"Nowhere", "GPE"⟩]) (fun _ => .failure) (fun _ => "")
        (fun _ _ _ => "") [] "tell me about Nowhere"
      = .ok ⟨cantFindMsg "Nowhere", [], ["Nowhere"], ["Nowhere"]⟩ := by rfl

/-- C3: an unsuccessful resolution (provider no-match or provider failure,
in either lookup form) leaves the cache exactly as it was, and an
immediately following identical resolution of the same key contacts the
provider again. -/
theorem C3_no_negative_caching (provider provider2 : String → ProviderResult)
    (cache : Cache) (name : String) (detailed : Bool)
    (h : isSuccess (get_location_info provider cache name detailed).ret = false) :
    (get_location_info provider cache name detailed).cache = cache
    ∧ (get_location_info provider2
        ((get_location_info provider cache name detailed).cache) name detailed).calls
      = [name] := by
  cases hl : lookupCache name cache with
  | some q =>
      obtain ⟨lat, lon⟩ := q
      cases detailed with
      | false => simp [get_location_info, hl, isSuccess] at h
      | true =>
          cases hp : provider name with
          | ok c0 addr => simp [get_location_info, hl, hp, isSuccess] at h
          | noMatch => simp [get_location_info, hl, hp, isSuccess] at h
          | failure =>
              refine ⟨by simp [get_location_info, hl, hp], ?_⟩
              cases hp2 : provider2 name <;>
                simp [get_location_info, hl, hp, hp2]
  | none =>
      cases hp : provider name with
      | ok c0 addr =>
          cases detailed <;> simp [get_location_info, hl, hp, isSuccess] at h
      | noMatch =>
          refine ⟨by cases detailed <;> simp [get_location_info, hl, hp], ?_⟩
          cases detailed <;> cases hp2 : provider2 name <;>
            simp [get_location_info, hl, hp, hp2]
      | failure =>
          refine ⟨by cases detailed <;> simp [get_location_info, hl, hp], ?_⟩
          cases detailed <;> cases hp2 : provider2 name <;>
            simp [get_location_info, hl, hp, hp2]

/-- C3 witness: a concrete no-match leaves the empty cache empty and the
repeated call reaches the provider. -/
theorem C3_witness :
    (get_location_info (fun _ => .noMatch) [] "Delphi" false).cache = []
    ∧ (get_location_info (fun _ => .failure)
        ((get_location_info (fun _ => .noMatch) [] "Delphi" false).cache)
        "Delphi" false).calls = ["Delphi"] :=
  C3_no_negative_caching (fun _ => .noMatch) (fun _ => .failure) [] "Delphi" false (by rfl)

/-- C4: on a cache miss where the provider succeeds but has no match,
`get_location_info` falls off its end and returns the bare Python value
`None` — not a tuple of the success shape — so the caller's tuple
unpacking `lat, lon = get_location_info(...)` raises `TypeError` and the
whole handler aborts instead of producing a "not found" response. -/
theorem C4_no_match_returns_bare_none :
    get_location_info (fun _ => .noMatch) [] "Atlantis" false =
        ⟨.pyNone, [], ["Atlantis"]⟩
    ∧ unpack2 .pyNone = .error .typeError
    ∧ chatPipeline (fun _ => [⟨"Atlantis", "GPE"⟩]) (fun _ => .noMatch) (fun _ => "")
        (fun _ _ _ => "") [] "find Atlantis" = .error .typeError :=
  ⟨rfl, rfl, rfl⟩

/-- The resolution loop hands every remaining location to
`get_location_info`, in order, whenever it finishes without an exception. -/
theorem pipeLoop_resolved (provider : String → ProviderResult) (fmt6 : ℚ → String)
    (extras : String → Option ℚ → Option ℚ → String) (sc : Bool) :
    ∀ (locs : List String) (resp : String) (cache : Cache)
      (calls resolved : List String) (out : PipeOut),
      pipeLoop provider fmt6 extras sc locs resp cache calls resolved = .ok out →
      out.resolved = resolved ++ locs := by
  intro locs
  induction locs with
  | nil =>
      intro resp cache calls resolved out h
      simp only [pipeLoop] at h
      cases h
      simp
  | cons name rest ih =>
      intro resp cache calls resolved out h
      simp only [pipeLoop] at h
      split at h
      · split at h
        · cases h
        · split at h
          · have := ih _ _ _ _ _ h
            rw [this]; simp
          · split at h
            · cases h
            · have := ih _ _ _ _ _ h
              rw [this]; simp
      · split at h
        · cases h
        · split at h
          · have := ih _ _ _ _ _ h
            rw [this]; simp
          · have := ih _ _ _ _ _ h
            rw [this]; simp

/-- C5 (amended): the extractor returns the GPE/LOC/FAC named entities plus
the regex-extracted neighborhood/district mentions, and the pipeline does
not keep only the first one — every run of the handler that completes
passes every extracted location to the resolver, in reading order. -/
theorem C5_amended_all_locations_resolved (ner : String → List Ent)
    (provider : String → ProviderResult) (fmt6 : ℚ → String)
    (extras : String → Option ℚ → Option ℚ → String) (cache : Cache)
    (user_input : String) (out : PipeOut)
    (h : chatPipeline ner provider fmt6 extras cache user_input = .ok out) :
    out.resolved = extract_location_from_text ner user_input := by
  unfold chatPipeline at h
  cases hext : extract_location_from_text ner user_input with
  | nil =>
      rw [hext] at h
      cases h
      rfl
  | cons a locs =>
      rw [hext] at h
      have := pipeLoop_resolved provider fmt6 extras (showCoordinates user_input)
        (a :: locs) "" cache [] [] out h
      simpa using this

/-- C5 witness: a concrete completed run resolves exactly the extracted
locations. -/
theorem C5_amended_witness :
    (⟨foundMsg "Oslo", [("Oslo", ((1 : ℚ), (1 : ℚ)))], ["Oslo"], ["Oslo"]⟩ : PipeOut).resolved
      = extract_location_from_text (fun _ => [⟨"Oslo", "GPE"⟩]) "visit Oslo" :=
  C5_amended_all_locations_resolved (fun _ => [⟨"Oslo", "GPE"⟩])
    (fun _ => .ok ⟨1, 1⟩ "a") (fun _ => "") (fun _ _ _ => "") [] "visit Oslo" _ (by rfl)

/-- C5 counterexample: with two extracted entities, the pipeline resolves
both — the second one is geocoded and answered, not silently discarded. -/
theorem C5_counterexample :
    chatPipeline (fun _ => [⟨"Paris", "GPE"⟩, ⟨"London", "GPE"⟩])
        (fun _ => .ok ⟨1, 1⟩ "addr") (fun _ => "") (fun _ _ _ => "") []
        "Compare Paris and London"
      = .ok ⟨foundMsg "Paris" ++ foundMsg "London",
             [("Paris", (1, 1)), ("London", (1, 1))],
             ["Paris", "London"], ["Paris", "London"]⟩ := by rfl

/-- Splitting characterization of `List.find?`: a found element is the
first satisfying element of the list. -/
theorem find?_eq_some_split {α : Type} (p : α → Bool) :
    ∀ (l : List α) (x : α), l.find? p = some x →
      ∃ l1 l2, l = l1 ++ x :: l2 ∧ p x = true ∧ ∀ y ∈ l1, p y = false := by
  intro l
  induction l with
  | nil => intro x h; simp [List.find?] at h
  | cons a tl ih =>
      intro x h
      cases hp : p a with
      | true =>
          rw [List.find?_cons_of_pos _ hp] at h
          cases h
          exact ⟨[], tl, rfl, hp, by simp⟩
      | false =>
          rw [List.find?_cons_of_neg _ (by simp [hp])] at h
          obtain ⟨l1, l2, heq, hx, hall⟩ := ih x h
          refine ⟨a :: l1, l2, by rw [heq]; rfl, hx, ?_⟩
          intro y hy
          rcases List.mem_cons.mp hy with rfl | hy'
          · exact hp
          · exact hall y hy'

/-- C6 (amended): the extracted category is the first entry of the fixed
vocabulary, in the order the code lists it (hospital, restaurant, school,
park, hotel, mall, cafe, pharmacy, bank, bar, supermarket, library), that
occurs as a case-insensitive substring of the input — not the vocabulary
word occurring first in token order — and it is unset exactly when no
vocabulary word occurs. -/
theorem C6_amended_vocab_list_order (user_input : String) :
    (∀ p, placeTypeOf user_input = some p →
        ∃ l1 l2, place_types = l1 ++ p :: l2
          ∧ strHas p.toList (lowerStr user_input).toList = true
          ∧ ∀ q ∈ l1, strHas q.toList (lowerStr user_input).toList = false)
    ∧ (placeTypeOf user_input = none →
        ∀ p ∈ place_types, strHas p.toList (lowerStr user_input).toList = false) := by
  constructor
  · intro p hp
    exact find?_eq_some_split _ place_types p hp
  · intro hn p hp
    have := List.find?_eq_none.mp hn p hp
    simpa using this

/-- C6 witness: on a query with no vocabulary word, the category is unset
and in particular "hospital" does not occur. -/
theorem C6_amended_witness :
    strHas "hospital".toList (lowerStr "no places here").toList = false :=
  (C6_amended_vocab_list_order "no places here").2 (by rfl) "hospital" (by decide)

/-- The category extraction as the specification words it: match each token
against the vocabulary and take the first match in token order (the tokens
used here are already their own lemmas). -/
def firstVocabTokenOrder (tokens : List String) : Option String :=
  tokens.find? (fun t => place_types.contains t)

/-- C6 counterexample: in "is there a park or a hospital nearby" the first
vocabulary word in token order is "park", but the code scans the vocabulary
list and extracts "hospital". -/
theorem C6_counterexample :
    placeTypeOf "is there a park or a hospital nearby" = some "hospital"
    ∧ firstVocabTokenOrder ["is", "there", "a", "park", "or", "a", "hospital", "nearby"]
        = some "park" := by decide

/-- C8: when the extractor finds no location in the query, the pipeline
answers the terminal no-location message, leaves the cache untouched, and
contacts the geocoding provider for nothing. -/
theorem C8_no_location_terminal (ner : String → List Ent)
    (provider : String → ProviderResult) (fmt6 : ℚ → String)
    (extras : String → Option ℚ → Option ℚ → String) (cache : Cache)
    (user_input : String)
    (h : extract_location_from_text ner user_input = []) :
    chatPipeline ner provider fmt6 extras cache user_input =
      .ok ⟨noLocationMsg, cache, [], []⟩ := by
  unfold chatPipeline
  rw [h]

/-- C8 witness: a concrete locationless query gets the terminal message and
no provider contact. -/
theorem C8_witness :
    extract_location_from_text (fun _ => []) "hello there" = []
    ∧ chatPipeline (fun _ => []) (fun _ => .failure) (fun _ => "") (fun _ _ _ => "")
        [("Rome", ((1 : ℚ), (2 : ℚ)))] "hello there"
      = .ok ⟨noLocationMsg, [("Rome", (1, 2))], [], []⟩ :=
  ⟨by rfl,
   C8_no_location_terminal (fun _ => []) (fun _ => .failure) (fun _ => "")
     (fun _ _ _ => "") [("Rome", (1, 2))] "hello there" (by rfl)⟩

/-- C9: the projection's direction-to-bearing mapping sends north to 0,
east to 90, south to 180 and west to 270 degrees, and any direction outside
the supported set to bearing 0. -/
theorem C9_direction_bearing_map :
    directionBearing "north" = 0 ∧ directionBearing "east" = 90
    ∧ directionBearing "south" = 180 ∧ directionBearing "west" = 270
    ∧ ∀ d, d ∉ (["north", "east", "south", "west"] : List String) →
        directionBearing d = 0 := by
  refine ⟨rfl, rfl, rfl, rfl, ?_⟩
  intro d hd
  simp only [List.mem_cons, List.not_mem_nil, or_false, not_or] at hd
  obtain ⟨h1, h2, h3, h4⟩ := hd
  simp [directionBearing, h1, h2, h3, h4]

/-- C9 witness: an unsupported direction string falls back to bearing 0. -/
theorem C9_direction_bearing_witness :
    "northeast" ∉ (["north", "east", "south", "west"] : List String)
    ∧ directionBearing "northeast" = 0 :=
  ⟨by decide, C9_direction_bearing_map.2.2.2.2 "northeast" (by decide)⟩

end GeoSAPI

